import Mathlib

set_option maxRecDepth 100000

/-!
Verification development for the document-ingestion Lambda pipeline
(src/lambda/document_processor.py).

The Python source is shallowly embedded: pure helpers become Lean
functions; external collaborators (object store, extraction service,
record store, packaged files, uuid and clock) are fields of an `Env`
record supplied to the embedded functions; observable side effects
(file reads, record-store put attempts) are returned as an explicit
event trace.  JSON values are modelled by the inductive type `Json`;
`json_loads` models the strict-mode Python `json.loads` on the integer
subset of JSON numbers (float literals, `NaN`/`Infinity` and lone
surrogate escapes are outside the model; no input considered here
contains them).  Python dictionaries are modelled as ordered
association lists with Python update semantics (`dictSet`).
-/

/-- JSON-representable values (numbers restricted to integers). -/
inductive Json where
  | null : Json
  | bool (b : Bool) : Json
  | num (n : Int) : Json
  | str (s : String) : Json
  | arr (elems : List Json) : Json
  | obj (members : List (String × Json)) : Json

/-- A Python dict with string keys, as an insertion-ordered association list. -/
abbrev Dict := List (String × Json)

/-- Lookup of a key in a dict (keys are unique under `dictSet` discipline). -/
def dictGet : Dict → String → Option Json
  | [], _ => none
  | (k, v) :: rest, n => if k = n then some v else dictGet rest n

/-- Python dict assignment `d[k] = v`: replaces in place if the key exists,
else appends at the end. -/
def dictSet : Dict → String → Json → Dict
  | [], k, v => [(k, v)]
  | (k', v') :: rest, k, v =>
    if k' = k then (k', v) :: rest else (k', v') :: dictSet rest k v

/-- The value of the last entry of an association list carrying a given key. -/
def lookupLast : List (String × Json) → String → Option Json
  | [], _ => none
  | (k, v) :: rest, n =>
    match lookupLast rest n with
    | some w => some w
    | none => if k = n then some v else none

/- ---------------------------------------------------------------
   Python string primitives used by the source
   --------------------------------------------------------------- -/

/-- Worker for `str.find`: first index at or after `i` where `sub` occurs. -/
def findSubAux : List Char → List Char → Nat → Int
  | cs, sub, i =>
    if sub.isPrefixOf cs then (i : Int)
    else match cs with
      | [] => -1
      | _ :: t => findSubAux t sub (i + 1)

/-- Python `s.find(sub, start)` (for the non-negative starts the source uses):
lowest index of `sub` at or after `start`, or -1 when absent. -/
def pyFind (s sub : String) (start : Int) : Int :=
  findSubAux (s.data.drop start.toNat) sub.data start.toNat

/-- Python `sub in s`. -/
def strContains (s sub : String) : Bool :=
  decide (0 ≤ pyFind s sub 0)

/-- Effective index of a Python slice bound for a sequence of length `n`. -/
def pyIdx (n : Nat) (i : Int) : Int :=
  if i < 0 then max 0 ((n : Int) + i) else min i (n : Int)

/-- Python slice `s[a:b]` with general (possibly negative) bounds. -/
def pySlice (s : String) (a b : Int) : String :=
  String.mk ((s.data.take (pyIdx s.data.length b).toNat).drop (pyIdx s.data.length a).toNat)

/-- Whitespace stripped by Python `str.strip` (ASCII portion). -/
def isPyWs (c : Char) : Bool :=
  c = ' ' || c = '\t' || c = '\n' || c = '\r' || c = '\x0b' || c = '\x0c'

/-- Python `s.strip()`. -/
def pyStrip (s : String) : String :=
  String.mk (((s.data.dropWhile isPyWs).reverse.dropWhile isPyWs).reverse)

/-- Python `s.lower()` (ASCII portion). -/
def pyLower (s : String) : String :=
  String.mk (s.data.map Char.toLower)

/- ---------------------------------------------------------------
   json.loads: strict-mode JSON decoding (integer-number subset)
   --------------------------------------------------------------- -/

/-- JSON inter-token whitespace accepted by the Python decoder. -/
def jsonWs (c : Char) : Bool :=
  c = ' ' || c = '\t' || c = '\n' || c = '\r'

/-- Hexadecimal digit value (codes 48-57 are `0`-`9`, 97-102 are `a`-`f`,
65-70 are `A`-`F`). -/
def hexVal (c : Char) : Option Nat :=
  let n := c.toNat
  if 48 ≤ n && n ≤ 57 then some (n - 48)
  else if 97 ≤ n && n ≤ 102 then some (n - 87)
  else if 65 ≤ n && n ≤ 70 then some (n - 55)
  else none

/-- String-literal body scanner: consumes up to the closing quote.
Rejects raw control characters (strict mode) and lone surrogate escapes. -/
def parseStringBody : Nat → List Char → List Char → Except String (String × List Char)
  | 0, _, _ => .error "depth limit exceeded"
  | _ + 1, acc, '"' :: t => .ok (String.mk acc.reverse, t)
  | fuel + 1, acc, '\\' :: e :: t =>
    match e with
    | '"' => parseStringBody fuel ('"' :: acc) t
    | '\\' => parseStringBody fuel ('\\' :: acc) t
    | '/' => parseStringBody fuel ('/' :: acc) t
    | 'b' => parseStringBody fuel ('\x08' :: acc) t
    | 'f' => parseStringBody fuel ('\x0c' :: acc) t
    | 'n' => parseStringBody fuel ('\n' :: acc) t
    | 'r' => parseStringBody fuel ('\r' :: acc) t
    | 't' => parseStringBody fuel ('\t' :: acc) t
    | 'u' =>
      match t with
      | h1 :: h2 :: h3 :: h4 :: t2 =>
        match hexVal h1, hexVal h2, hexVal h3, hexVal h4 with
        | some a, some b, some c, some d =>
          let n := ((a * 16 + b) * 16 + c) * 16 + d
          if 0xd800 ≤ n && n < 0xdc00 then
            match t2 with
            | '\\' :: 'u' :: g1 :: g2 :: g3 :: g4 :: t3 =>
              match hexVal g1, hexVal g2, hexVal g3, hexVal g4 with
              | some a2, some b2, some c2, some d2 =>
                let m := ((a2 * 16 + b2) * 16 + c2) * 16 + d2
                if 0xdc00 ≤ m && m < 0xe000 then
                  let cp := 0x10000 + (n - 0xd800) * 0x400 + (m - 0xdc00)
                  parseStringBody fuel (Char.ofNat cp :: acc) t3
                else .error "lone surrogate escape outside model"
              | _, _, _, _ => .error "invalid unicode escape"
            | _ => .error "lone surrogate escape outside model"
          else if 0xdc00 ≤ n && n < 0xe000 then
            .error "lone surrogate escape outside model"
          else parseStringBody fuel (Char.ofNat n :: acc) t2
        | _, _, _, _ => .error "invalid unicode escape"
      | _ => .error "invalid unicode escape"
    | _ => .error "invalid escape"
  | fuel + 1, acc, c :: t =>
    if c.toNat < 0x20 then .error "invalid control character"
    else parseStringBody fuel (c :: acc) t
  | _ + 1, _, [] => .error "unterminated string"

/-- Digits to a natural number. -/
def digitsToNat (ds : List Char) : Nat :=
  ds.foldl (fun acc c => 10 * acc + (c.toNat - 48)) 0

/-- JSON number token (integer subset): `-?(0|[1-9][0-9]*)` not followed by
a fraction or exponent. -/
def parseNum (cs : List Char) : Except String (Json × List Char) :=
  let (neg, cs1) : Bool × List Char :=
    match cs with
    | '-' :: t => (true, t)
    | _ => (false, cs)
  match cs1 with
  | c :: _ =>
    if c.isDigit then
      let digits := if c = '0' then ['0'] else cs1.takeWhile Char.isDigit
      let rest := cs1.drop digits.length
      match rest with
      | '.' :: _ => .error "float literal outside model"
      | 'e' :: _ => .error "float literal outside model"
      | 'E' :: _ => .error "float literal outside model"
      | _ =>
        let v : Int := digitsToNat digits
        .ok (.num (if neg then -v else v), rest)
    else .error "Expecting value"
  | [] => .error "Expecting value"

mutual

/-- One JSON value, leaving the unconsumed remainder. -/
def parseVal : Nat → List Char → Except String (Json × List Char)
  | 0, _ => .error "depth limit exceeded"
  | fuel + 1, cs =>
    match cs.dropWhile jsonWs with
    | [] => .error "Expecting value"
    | 'n' :: t =>
      if t.take 3 = ['u', 'l', 'l'] then .ok (.null, t.drop 3)
      else .error "Expecting value"
    | 't' :: t =>
      if t.take 3 = ['r', 'u', 'e'] then .ok (.bool true, t.drop 3)
      else .error "Expecting value"
    | 'f' :: t =>
      if t.take 4 = ['a', 'l', 's', 'e'] then .ok (.bool false, t.drop 4)
      else .error "Expecting value"
    | '"' :: t =>
      match parseStringBody (t.length + 1) [] t with
      | .ok (s, rest) => .ok (.str s, rest)
      | .error e => .error e
    | '{' :: t => parseObjBody fuel t [] true
    | '[' :: t => parseArrBody fuel t [] true
    | c :: t =>
      if c = '-' || c.isDigit then parseNum (c :: t)
      else .error "Expecting value"

/-- Members of an object after `\x7b` (`first` true) or after a comma.
Duplicate keys follow Python dict semantics: the last occurrence wins. -/
def parseObjBody : Nat → List Char → Dict → Bool → Except String (Json × List Char)
  | 0, _, _, _ => .error "depth limit exceeded"
  | fuel + 1, cs, acc, first =>
    match cs.dropWhile jsonWs with
    | '}' :: t =>
      if first then .ok (.obj acc, t)
      else .error "Expecting property name enclosed in double quotes"
    | '"' :: t =>
      match parseStringBody (t.length + 1) [] t with
      | .error e => .error e
      | .ok (key, rest) =>
        match rest.dropWhile jsonWs with
        | ':' :: rest2 =>
          match parseVal fuel rest2 with
          | .error e => .error e
          | .ok (v, rest3) =>
            let acc2 := dictSet acc key v
            match rest3.dropWhile jsonWs with
            | '}' :: t2 => .ok (.obj acc2, t2)
            | ',' :: t2 => parseObjBody fuel t2 acc2 false
            | _ => .error "Expecting comma delimiter"
        | _ => .error "Expecting colon delimiter"
    | _ => .error "Expecting property name enclosed in double quotes"

/-- Elements of an array after `[` (`first` true) or after a comma. -/
def parseArrBody : Nat → List Char → List Json → Bool → Except String (Json × List Char)
  | 0, _, _, _ => .error "depth limit exceeded"
  | fuel + 1, cs, acc, first =>
    match cs.dropWhile jsonWs with
    | ']' :: t =>
      if first then .ok (.arr acc.reverse, t)
      else .error "Expecting value"
    | rest =>
      match parseVal fuel rest with
      | .error e => .error e
      | .ok (v, rest2) =>
        match rest2.dropWhile jsonWs with
        | ']' :: t2 => .ok (.arr (v :: acc).reverse, t2)
        | ',' :: t2 => parseArrBody fuel t2 (v :: acc) false
        | _ => .error "Expecting comma delimiter"

end

/-- Model of Python `json.loads` (strict mode, integer-number subset):
one JSON document, whitespace allowed around it, nothing after it. -/
def json_loads (s : String) : Except String Json :=
  match parseVal (2 * s.data.length + 16) s.data with
  | .error e => .error e
  | .ok (v, rest) =>
    if (rest.dropWhile jsonWs).isEmpty then .ok v else .error "Extra data"

/- ---------------------------------------------------------------
   Response Parser (parse_json_response, source lines 125-141)
   --------------------------------------------------------------- -/

/-- Candidate-substring extraction of `parse_json_response`: the fence
heuristic of source lines 128-136, which reassigns `content` before the
parse attempt.  `find` returns -1 when no closing fence exists, making the
slice end one character before the end of the text (Python slicing). -/
def extractCandidate (content : String) : String :=
  if 0 ≤ pyFind content "```json" 0 then
    let start : Int := pyFind content "```json" 0 + 7
    pyStrip (pySlice content start (pyFind content "```" start))
  else if 0 ≤ pyFind content "```" 0 then
    let start : Int := pyFind content "```" 0 + 3
    pyStrip (pySlice content start (pyFind content "```" start))
  else content

/-- Source lines 125-141.  The `try` block slices the fenced candidate out
of `content` (reassigning `content`) and parses it; the
`except json.JSONDecodeError` branch parses `content` again — which at that
point is the reassigned candidate, not the original text. -/
def parse_json_response (content : String) : Except String Json :=
  let content1 := extractCandidate content
  match json_loads content1 with
  | .ok v => .ok v
  | .error _ => json_loads content1

/- ---------------------------------------------------------------
   json.dumps with indent=2 (used to render the schema into the prompt)
   --------------------------------------------------------------- -/

/-- Lower-case hexadecimal digit character for a value below 16. -/
def hexDigit (k : Nat) : Char :=
  if k < 10 then Char.ofNat (48 + k) else Char.ofNat (87 + k)

/-- Four-digit hexadecimal unicode escape. -/
def uHex (n : Nat) : List Char :=
  ['\\', 'u', hexDigit (n / 4096 % 16), hexDigit (n / 256 % 16),
   hexDigit (n / 16 % 16), hexDigit (n % 16)]

/-- JSON string-character escaping as performed by `json.dumps`
(default `ensure_ascii`). -/
def escapeJsonChar (c : Char) : List Char :=
  if c = '"' then ['\\', '"']
  else if c = '\\' then ['\\', '\\']
  else if c = '\n' then ['\\', 'n']
  else if c = '\r' then ['\\', 'r']
  else if c = '\t' then ['\\', 't']
  else if c = '\x08' then ['\\', 'b']
  else if c = '\x0c' then ['\\', 'f']
  else if c.toNat < 0x20 then uHex c.toNat
  else if c.toNat < 0x7f then [c]
  else if c.toNat < 0x10000 then uHex c.toNat
  else
    uHex (0xd800 + (c.toNat - 0x10000) / 0x400) ++ uHex (0xdc00 + (c.toNat - 0x10000) % 0x400)

/-- Serialized JSON string literal. -/
def dumpStr (s : String) : String :=
  String.mk ('"' :: (s.data.flatMap escapeJsonChar) ++ ['"'])

/-- Decimal rendering of an integer. -/
def dumpInt (n : Int) : String :=
  if n < 0 then String.mk ('-' :: (Nat.toDigits 10 n.natAbs)) else String.mk (Nat.toDigits 10 n.toNat)

/-- Two spaces of indentation per level, as `indent=2` produces. -/
def indentOf (ind : Nat) : String :=
  String.mk (List.replicate (2 * ind) ' ')

mutual

/-- `json.dumps(-, indent=2)` worker; `ind` is the current indentation depth. -/
def dumpJson : Nat → Nat → Json → String
  | 0, _, _ => ""
  | _ + 1, _, .null => "null"
  | _ + 1, _, .bool true => "true"
  | _ + 1, _, .bool false => "false"
  | _ + 1, _, .num n => dumpInt n
  | _ + 1, _, .str s => dumpStr s
  | _ + 1, _, .arr [] => "[]"
  | fuel + 1, ind, .arr (x :: xs) =>
    "[\n" ++ dumpElems fuel (ind + 1) (x :: xs) ++ "\n" ++ indentOf ind ++ "]"
  | _ + 1, _, .obj [] => "\x7b\x7d"
  | fuel + 1, ind, .obj (m :: ms) =>
    "\x7b\n" ++ dumpMembers fuel (ind + 1) (m :: ms) ++ "\n" ++ indentOf ind ++ "\x7d"

/-- Comma-and-newline separated array elements at a given indentation. -/
def dumpElems : Nat → Nat → List Json → String
  | 0, _, _ => ""
  | _ + 1, _, [] => ""
  | fuel + 1, ind, [x] => indentOf ind ++ dumpJson fuel ind x
  | fuel + 1, ind, x :: y :: xs =>
    indentOf ind ++ dumpJson fuel ind x ++ ",\n" ++ dumpElems fuel ind (y :: xs)

/-- Comma-and-newline separated object members at a given indentation. -/
def dumpMembers : Nat → Nat → List (String × Json) → String
  | 0, _, _ => ""
  | _ + 1, _, [] => ""
  | fuel + 1, ind, [(k, v)] => indentOf ind ++ dumpStr k ++ ": " ++ dumpJson fuel ind v
  | fuel + 1, ind, (k, v) :: m :: ms =>
    indentOf ind ++ dumpStr k ++ ": " ++ dumpJson fuel ind v ++ ",\n" ++ dumpMembers fuel ind (m :: ms)

end

/-- Model of `json.dumps(schema, indent=2)` (depth bounded far beyond any
real schema). -/
def json_dumps (j : Json) : String :=
  dumpJson 1000000 0 j

/- ---------------------------------------------------------------
   urllib.parse.unquote_plus and str.format (library models)
   --------------------------------------------------------------- -/

/-- Worker for `unquote_plus`: `+` becomes a space, `%XX` becomes the
character with that code (single-byte model of the percent decoding;
multi-byte UTF-8 sequences are outside the model), malformed percent
escapes are left untouched. -/
def unquoteAux : Nat → List Char → List Char → List Char
  | 0, acc, _ => acc.reverse
  | _ + 1, acc, [] => acc.reverse
  | fuel + 1, acc, '+' :: t => unquoteAux fuel (' ' :: acc) t
  | fuel + 1, acc, '%' :: h1 :: h2 :: t =>
    match hexVal h1, hexVal h2 with
    | some a, some b => unquoteAux fuel (Char.ofNat (a * 16 + b) :: acc) t
    | _, _ => unquoteAux fuel ('%' :: acc) (h1 :: h2 :: t)
  | fuel + 1, acc, c :: t => unquoteAux fuel (c :: acc) t

/-- Model of `urllib.parse.unquote_plus` on object keys. -/
def unquote_plus (s : String) : String :=
  String.mk (unquoteAux (s.data.length + 1) [] s.data)

/-- Model of `template.format(schema=value)`: doubled braces are literal,
the replacement field named `schema` is substituted, any other field name
raises `KeyError` and a stray closing brace raises `ValueError` (format
specifications beyond a plain field name are outside the model). -/
def formatSchema : Nat → List Char → List Char → String → Except String String
  | 0, _, _, _ => .error "format depth limit exceeded"
  | _ + 1, acc, [], _ => .ok (String.mk acc.reverse)
  | fuel + 1, acc, '{' :: '{' :: t, value => formatSchema fuel ('\x7b' :: acc) t value
  | fuel + 1, acc, '}' :: '}' :: t, value => formatSchema fuel ('\x7d' :: acc) t value
  | fuel + 1, acc, '{' :: t, value =>
    let name := t.takeWhile (fun c => c ≠ '}')
    match t.drop name.length with
    | '}' :: t2 =>
      if name = ['s', 'c', 'h', 'e', 'm', 'a'] then
        formatSchema fuel (value.data.reverse ++ acc) t2 value
      else .error ("KeyError: " ++ String.mk name)
    | _ => .error "ValueError: Single opening brace encountered in format string"
  | _ + 1, _, '}' :: _, _ =>
    .error "ValueError: Single closing brace encountered in format string"
  | fuel + 1, acc, c :: t, value => formatSchema fuel (c :: acc) t value

/- ---------------------------------------------------------------
   base64.b64encode (library model)
   --------------------------------------------------------------- -/

/-- The standard base64 alphabet. -/
def b64Char (n : Nat) : Char :=
  ("ABCDEFGHIJKLMNOPQRSTUVWXYZabcdefghijklmnopqrstuvwxyz0123456789+/".data).getD n 'A'

/-- Model of `base64.b64encode(content).decode(utf-8)` on a byte list. -/
def b64encode : List Nat → String
  | [] => ""
  | [b1] =>
    String.mk [b64Char (b1 / 4 % 64), b64Char (b1 % 4 * 16), '=', '=']
  | [b1, b2] =>
    String.mk [b64Char (b1 / 4 % 64), b64Char ((b1 % 4 * 16 + b2 / 16) % 64),
      b64Char (b2 % 16 * 4), '=']
  | b1 :: b2 :: b3 :: rest =>
    String.mk [b64Char (b1 / 4 % 64), b64Char ((b1 % 4 * 16 + b2 / 16) % 64),
      b64Char ((b2 % 16 * 4 + b3 / 64) % 64), b64Char (b3 % 64)] ++ b64encode rest

/- ---------------------------------------------------------------
   The environment: external collaborators of the pipeline
   --------------------------------------------------------------- -/

/-- Result of `s3_client.get_object` as the source consumes it: the byte
content of the body and the optional `ContentType` response field. -/
structure S3Response where
  body : List Nat
  contentType : Option String

/-- The structured Bedrock request the source serializes at the transport
boundary (source lines 83-106); `json.dumps` of it belongs to the
collaborator model, so the request is kept structural. -/
structure BedrockRequest where
  anthropic_version : String
  max_tokens : Nat
  media_type : String
  data_base64 : String
  text : String
  temperature : String

/-- External collaborators and process-level configuration: the S3 client,
the packaged-file reads behind `open`, the Bedrock runtime (returning the
raw response-body text that the source feeds to `json.loads`), the
DynamoDB table, `hashlib.sha256(-).hexdigest()`, `PdfReader` page counting,
`uuid.uuid4()`, `datetime.utcnow().isoformat()` and the environment
variables.  Every failure a collaborator can raise is an `.error`. -/
structure Env where
  s3_get_object : String → String → Except String S3Response
  read_file : String → Except String String
  invoke_model : String → BedrockRequest → Except String String
  put_item : Dict → Except String Unit
  sha256_hex : List Nat → String
  pdf_pages : List Nat → Except String Nat
  uuid4 : String
  utcnow_iso : String
  model_id : String
  temperature : String

/-- Observable side effects of one `process_document` run. -/
inductive Ev where
  | s3Get (bucket key : String)
  | fileRead (path : String)
  | bedrockCall
  | putAttempt (item : Dict)

/-- Record-store put attempts in a trace. -/
def putTrace (tr : List Ev) : List Dict :=
  tr.filterMap (fun e => match e with | .putAttempt d => some d | _ => none)

/-- Number of reads of a given packaged file in a trace. -/
def fileReadCount (tr : List Ev) (p : String) : Nat :=
  tr.countP (fun e => match e with | .fileRead q => q == p | _ => false)

/-- Source line 24. -/
def SCHEMA_FILE : String := "schema.json"

/-- Source line 25. -/
def PROMPT_FILE : String := "prompt.txt"

/-- Source lines 31-33: SHA-256 hex digest of the content bytes
(the digest function itself is the collaborator `sha256_hex`). -/
def calculate_file_hash (env : Env) (content : List Nat) : String :=
  env.sha256_hex content

/-- Source lines 36-47: page count for PDF content types, `none` for any
other content type and `none` (after a logged warning) on any `PdfReader`
failure; total by construction, so it can never raise. -/
def get_page_count (env : Env) (document_content : List Nat) (content_type : String) : Option Nat :=
  if strContains (pyLower content_type) "pdf" then
    match env.pdf_pages document_content with
    | .ok n => some n
    | .error _ => none
  else none

/-- Source lines 50-60: read and decode `schema.json`, wrapping any failure
(missing file or malformed JSON).  The file-read event is recorded by the
caller. -/
def load_schema (env : Env) : Except String Json :=
  match env.read_file SCHEMA_FILE with
  | .error e => .error ("Failed to load schema from " ++ SCHEMA_FILE ++ ": " ++ e)
  | .ok s =>
    match json_loads s with
    | .error e => .error ("Failed to load schema from " ++ SCHEMA_FILE ++ ": " ++ e)
    | .ok j => .ok j

/-- Source lines 63-73: read `prompt.txt`, wrapping any failure. -/
def load_prompt_template (env : Env) : Except String String :=
  match env.read_file PROMPT_FILE with
  | .error e => .error ("Failed to load prompt from " ++ PROMPT_FILE ++ ": " ++ e)
  | .ok s => .ok s

/-- Python subscript `j[k]` on a decoded JSON value: `KeyError` when the
key is absent, `TypeError` when the value is not a dict. -/
def getItem (j : Json) (k : String) : Except String Json :=
  match j with
  | .obj kvs =>
    match dictGet kvs k with
    | some v => .ok v
    | none => .error ("KeyError: " ++ k)
  | _ => .error ("TypeError: value is not subscriptable by " ++ k)

/-- Python subscript `j[0]`. -/
def pyIndex0 (j : Json) : Except String Json :=
  match j with
  | .arr (x :: _) => .ok x
  | .arr [] => .error "IndexError: list index out of range"
  | .str s =>
    match s.data with
    | c :: _ => .ok (.str (String.mk [c]))
    | [] => .error "IndexError: string index out of range"
  | .obj _ => .error "KeyError: 0"
  | _ => .error "TypeError: value is not subscriptable by 0"

/-- A value that must be a Python `str` (`json.loads` and string methods
raise `TypeError` otherwise). -/
def asStr (j : Json) : Except String String :=
  match j with
  | .str s => .ok s
  | _ => .error "TypeError: expected str"

/-- Source lines 76-122: base64-encode the document, build the request,
call Bedrock, decode the response body, select `content[0].text` and run
the Response Parser; every failure inside the `try` is re-raised with the
`Failed to invoke Bedrock with document` prefix. -/
def invoke_bedrock_with_document (env : Env) (prompt_text : String)
    (document_content : List Nat) (media_type : String) : Except String Json :=
  let document_base64 := b64encode document_content
  let request_body : BedrockRequest :=
    { anthropic_version := "bedrock-2023-05-31", max_tokens := 4096,
      media_type := media_type, data_base64 := document_base64,
      text := prompt_text, temperature := env.temperature }
  let inner : Except String Json := do
    let raw ← env.invoke_model env.model_id request_body
    let response_body ← json_loads raw
    let contentField ← getItem response_body "content"
    let firstBlock ← pyIndex0 contentField
    let textField ← getItem firstBlock "text"
    let content ← asStr textField
    parse_json_response content
  match inner with
  | .ok v => .ok v
  | .error e => .error ("Failed to invoke Bedrock with document: " ++ e)

/-- Source lines 194-197: each extracted property is assigned over the
record as a top-level column, in enumeration order. -/
def assembleRecord (record : Dict) (props : List (String × Json)) : Dict :=
  props.foldl (fun d p => dictSet d p.1 p.2) record

/-- Source lines 179-192: the fixed fields of the record, in insertion
order, with `page_count` added only when structural inspection produced
one. -/
def recordBase (env : Env) (bucket key upload_time : String)
    (document_content : List Nat) (content_type : String) : Dict :=
  let base : Dict :=
    [("id", Json.str env.uuid4),
     ("document_name", Json.str key),
     ("bucket", Json.str bucket),
     ("upload_time", Json.str upload_time),
     ("processing_time", Json.str env.utcnow_iso),
     ("file_hash", Json.str (calculate_file_hash env document_content)),
     ("file_size", Json.num document_content.length),
     ("content_type", Json.str content_type)]
  match get_page_count env document_content content_type with
  | some n => dictSet base "page_count" (Json.num n)
  | none => base

/-- Source lines 144-206: fetch, fingerprint, inspect, load templates,
render the prompt, invoke extraction, assemble the record and perform the
single put.  Returns the outcome together with the event trace; template
loads are not cached anywhere — both files are read on every call.
An extraction result without `.items()` (a non-dict) raises
`AttributeError` at line 196, outside any `try`. -/
def process_document (env : Env) (bucket key upload_time : String) :
    Except String Dict × List Ev :=
  match env.s3_get_object bucket key with
  | .error e =>
    (.error ("Failed to download document from S3: " ++ e), [.s3Get bucket key])
  | .ok resp =>
    let document_content := resp.body
    let content_type := resp.contentType.getD "application/octet-stream"
    match load_schema env with
    | .error e => (.error e, [.s3Get bucket key, .fileRead SCHEMA_FILE])
    | .ok schema =>
      match load_prompt_template env with
      | .error e =>
        (.error e, [.s3Get bucket key, .fileRead SCHEMA_FILE, .fileRead PROMPT_FILE])
      | .ok prompt_template =>
        match formatSchema (prompt_template.length + 1) [] prompt_template.data
            (json_dumps schema) with
        | .error e =>
          (.error e, [.s3Get bucket key, .fileRead SCHEMA_FILE, .fileRead PROMPT_FILE])
        | .ok prompt_text =>
          match invoke_bedrock_with_document env prompt_text document_content content_type with
          | .error e =>
            (.error e,
             [.s3Get bucket key, .fileRead SCHEMA_FILE, .fileRead PROMPT_FILE, .bedrockCall])
          | .ok extracted =>
            match extracted with
            | .obj props =>
              let record :=
                assembleRecord (recordBase env bucket key upload_time document_content content_type)
                  props
              match env.put_item record with
              | .ok _ =>
                (.ok record,
                 [.s3Get bucket key, .fileRead SCHEMA_FILE, .fileRead PROMPT_FILE, .bedrockCall,
                  .putAttempt record])
              | .error e =>
                (.error ("Failed to store record in DynamoDB: " ++ e),
                 [.s3Get bucket key, .fileRead SCHEMA_FILE, .fileRead PROMPT_FILE, .bedrockCall,
                  .putAttempt record])
            | _ =>
              (.error "AttributeError: extraction result has no attribute items",
               [.s3Get bucket key, .fileRead SCHEMA_FILE, .fileRead PROMPT_FILE, .bedrockCall])

/- ---------------------------------------------------------------
   Batch Coordinator (lambda_handler, source lines 209-264)
   --------------------------------------------------------------- -/

/-- Python `for x in j`: lists yield their elements, strings their
characters, dicts their keys; other values raise `TypeError`. -/
def iterElems (j : Json) : Except String (List Json) :=
  match j with
  | .arr xs => .ok xs
  | .str s => .ok (s.data.map (fun c => Json.str (String.mk [c])))
  | .obj kvs => .ok (kvs.map (fun kv => Json.str kv.1))
  | _ => .error "TypeError: value is not iterable"

/-- Source lines 227-230: extract bucket name, percent-decoded object key
and event time from one document-change record; any missing key or wrong
shape raises, and that exception is caught only by the envelope-level
handler. -/
def extractDocFields (s3_record : Json) : Except String (Json × String × Json) :=
  match getItem s3_record "s3" with
  | .error e => .error e
  | .ok s3 =>
    match getItem s3 "bucket" with
    | .error e => .error e
    | .ok bucketObj =>
      match getItem bucketObj "name" with
      | .error e => .error e
      | .ok bucketName =>
        match getItem s3 "object" with
        | .error e => .error e
        | .ok objectObj =>
          match getItem objectObj "key" with
          | .error e => .error e
          | .ok keyJ =>
            match asStr keyJ with
            | .error e => .error e
            | .ok keyRaw =>
              match getItem s3_record "eventTime" with
              | .error e => .error e
              | .ok time => .ok (bucketName, unquote_plus keyRaw, time)

/-- Source lines 220-226: unwrap one SQS record — `body` must be a JSON
text whose decoding carries a `Message` field that is itself a JSON text
with a `Records` list; every failure at any of these layers is the single
envelope-level exception. -/
def unwrapEnvelope (sqs_record : Json) : Except String (List Json) :=
  match getItem sqs_record "body" with
  | .error e => .error e
  | .ok bodyJ =>
    match asStr bodyJ with
    | .error e => .error e
    | .ok body =>
      match json_loads body with
      | .error e => .error e
      | .ok sns_message =>
        match getItem sns_message "Message" with
        | .error e => .error e
        | .ok messageJ =>
          match asStr messageJ with
          | .error e => .error e
          | .ok message =>
            match json_loads message with
            | .error e => .error e
            | .ok s3_event =>
              match getItem s3_event "Records" with
              | .error e => .error e
              | .ok recordsJ => iterElems recordsJ

/-- The per-document outcome of the inner loop body (source lines 232-246):
a success entry (left) or a document-level failure entry (right).
`result` is whatever the supplied document processor returned; looking up
`id` in it can itself raise `KeyError` inside the same `try`. -/
def docEntry (procDoc : Json → String → Json → Except String Dict)
    (bucket : Json) (key : String) (time : Json) : Sum Json Json :=
  match procDoc bucket key time with
  | .ok result =>
    match dictGet result "id" with
    | some v =>
      .inl (Json.obj [("status", Json.str "success"), ("document", Json.str key),
        ("record_id", v)])
    | none =>
      .inr (Json.obj [("status", Json.str "error"), ("document", Json.str key),
        ("error", Json.str "KeyError: id")])
  | .error e =>
    .inr (Json.obj [("status", Json.str "error"), ("document", Json.str key),
      ("error", Json.str e)])

/-- Source lines 226-246: the loop over the document-change records of one
envelope.  Returns the success entries, the document-level failure entries
and, when field extraction of some record raised, the exception that
aborted the loop (entries accumulated before the abort are kept; records
after it are never visited). -/
def processS3Records (procDoc : Json → String → Json → Except String Dict) :
    List Json → List Json × List Json × Option String
  | [] => ([], [], none)
  | r :: rest =>
    match extractDocFields r with
    | .error e => ([], [], some e)
    | .ok (bucket, key, time) =>
      let step := docEntry procDoc bucket key time
      let (rs, es, ab) := processS3Records procDoc rest
      match step with
      | .inl s => (s :: rs, es, ab)
      | .inr f => (rs, f :: es, ab)

/-- A failure entry recorded at the envelope level (source lines 248-254):
it carries no `document` field because no document identity was
recovered. -/
def envFailEntry (e : String) : Json :=
  Json.obj [("status", Json.str "error"), ("error", Json.str e)]

/-- Source lines 217-254: processing of one SQS record — either the
envelope fails to unwrap (one envelope-level failure entry, nothing else),
or its document records are iterated, with an extraction exception caught
at the same envelope level after the entries already accumulated. -/
def processEnvelope (procDoc : Json → String → Json → Except String Dict)
    (sqs_record : Json) : List Json × List Json :=
  match unwrapEnvelope sqs_record with
  | .error e => ([], [envFailEntry e])
  | .ok recs =>
    let (rs, es, ab) := processS3Records procDoc recs
    match ab with
    | some e => (rs, es ++ [envFailEntry e])
    | none => (rs, es)

/-- The handler response (source lines 256-264); the body dict is kept
structural, its `json.dumps` serialization belonging to the transport
boundary. -/
structure LambdaResponse where
  statusCode : Nat
  processed : Nat
  errors : Nat
  results : List Json
  errors_detail : List Json

/-- Source lines 209-264: iterate the SQS records of the event, accumulate
success and failure entries, and report 200 when no failure was recorded
and 207 otherwise.  `records` is the `Records` list of the event;
`procDoc` is the document processor called for each unwrapped document
(in the source, `process_document` running against AWS). -/
def lambda_handler (procDoc : Json → String → Json → Except String Dict)
    (records : List Json) : LambdaResponse :=
  let acc := records.foldl
    (fun acc sqs_record =>
      let pe := processEnvelope procDoc sqs_record
      (acc.1 ++ pe.1, acc.2 ++ pe.2))
    (([], []) : List Json × List Json)
  { statusCode := if acc.2.isEmpty then 200 else 207,
    processed := acc.1.length,
    errors := acc.2.length,
    results := acc.1,
    errors_detail := acc.2 }

/-- Field access on a JSON object entry, `none` when absent or not an
object. -/
def entryField (j : Json) (k : String) : Option Json :=
  match j with
  | .obj kvs => dictGet kvs k
  | _ => none

/- ---------------------------------------------------------------
   Concrete fixtures used to evaluate the embedding
   --------------------------------------------------------------- -/

/-- A raw extraction-service response body whose `content[0].text` is a
JSON object with a `bucket` field. -/
def cBedrockRaw : String :=
  "\x7b\"content\": [\x7b\"text\": " ++ dumpStr "\x7b\"bucket\": \"override\"\x7d" ++ "\x7d]\x7d"

/-- A concrete environment on which the whole pipeline succeeds: a two-byte
non-PDF object, an empty extraction schema, a one-field prompt template and
a record store that accepts the put. -/
def cEnv : Env :=
  { s3_get_object := fun _ _ => .ok { body := [104, 105], contentType := some "text/plain" },
    read_file := fun p =>
      if p == SCHEMA_FILE then .ok "\x7b\x7d" else .ok "Extract with \x7bschema\x7d",
    invoke_model := fun _ _ => .ok cBedrockRaw,
    put_item := fun _ => .ok (),
    sha256_hex := fun _ => "hash-1",
    pdf_pages := fun _ => .error "not a pdf",
    uuid4 := "uuid-1",
    utcnow_iso := "2026-01-01T00:00:00",
    model_id := "model-1",
    temperature := "0.0" }

/-- A document processor that always succeeds with a fixed record id. -/
def cProcOk : Json → String → Json → Except String Dict :=
  fun _ _ _ => .ok [("id", Json.str "rid-1")]

/-- A document processor that always raises. -/
def cProcFail : Json → String → Json → Except String Dict :=
  fun _ _ _ => .error "boom"

/-- A well-formed document-change record for bucket `b`, key `k1`, time
`t0`. -/
def goodRec : Json :=
  Json.obj [("s3", Json.obj [("bucket", Json.obj [("name", Json.str "b")]),
    ("object", Json.obj [("key", Json.str "k1")])]), ("eventTime", Json.str "t0")]

/-- An SQS record whose body is not valid JSON. -/
def badSqs : Json := Json.obj [("body", Json.str "not json")]

/-- The notification text of an S3 event carrying three document-change
records, the middle one malformed (an empty object). -/
def msg9 : String :=
  "\x7b\"Records\": [" ++
  "\x7b\"s3\": \x7b\"bucket\": \x7b\"name\": \"b\"\x7d, \"object\": \x7b\"key\": \"k1\"\x7d\x7d, \"eventTime\": \"t0\"\x7d, " ++
  "\x7b\x7d, " ++
  "\x7b\"s3\": \x7b\"bucket\": \x7b\"name\": \"b\"\x7d, \"object\": \x7b\"key\": \"k1\"\x7d\x7d, \"eventTime\": \"t0\"\x7d" ++
  "]\x7d"

/-- An SQS record wrapping `msg9` through the SNS envelope layer. -/
def sqsC9 : Json :=
  Json.obj [("body", Json.str ("\x7b\"Message\": " ++ dumpStr msg9 ++ "\x7d"))]

/- ---------------------------------------------------------------
   Helper lemmas
   --------------------------------------------------------------- -/

lemma dictGet_dictSet (d : Dict) (k : String) (v : Json) (n : String) :
    dictGet (dictSet d k v) n = if k = n then some v else dictGet d n := by
  induction d with
  | nil => simp [dictSet, dictGet]
  | cons hd tl ih =>
    obtain ⟨k', v'⟩ := hd
    by_cases hk : k' = k
    · subst hk
      by_cases hn : k' = n <;> simp [dictSet, dictGet, hn]
    · by_cases hn : k' = n
      · subst hn
        have hk' : ¬ k = k' := fun h => hk h.symm
        simp [dictSet, hk, dictGet, hk']
      · simp [dictSet, hk, dictGet, hn, ih]

lemma dictGet_assembleRecord (props : List (String × Json)) :
    ∀ (d : Dict) (n : String),
      dictGet (assembleRecord d props) n =
        match lookupLast props n with
        | some v => some v
        | none => dictGet d n := by
  induction props with
  | nil => intro d n; simp [assembleRecord, lookupLast]
  | cons p rest ih =>
    intro d n
    obtain ⟨k, v⟩ := p
    have step : assembleRecord d ((k, v) :: rest) = assembleRecord (dictSet d k v) rest := rfl
    rw [step, ih]
    cases h : lookupLast rest n with
    | some w => simp [lookupLast, h]
    | none =>
      by_cases hn : k = n <;> simp [lookupLast, h, dictGet_dictSet, hn]

lemma handler_decomp (procDoc : Json → String → Json → Except String Dict)
    (records : List Json) :
    lambda_handler procDoc records =
      { statusCode :=
          if ((records.map (fun r => (processEnvelope procDoc r).2)).flatten).isEmpty
          then 200 else 207,
        processed := ((records.map (fun r => (processEnvelope procDoc r).1)).flatten).length,
        errors := ((records.map (fun r => (processEnvelope procDoc r).2)).flatten).length,
        results := (records.map (fun r => (processEnvelope procDoc r).1)).flatten,
        errors_detail := (records.map (fun r => (processEnvelope procDoc r).2)).flatten } := by
  have aux : ∀ (rs : List Json) (a b : List Json),
      rs.foldl
        (fun acc sqs_record =>
          let pe := processEnvelope procDoc sqs_record
          (acc.1 ++ pe.1, acc.2 ++ pe.2))
        (a, b)
        = (a ++ (rs.map (fun r => (processEnvelope procDoc r).1)).flatten,
           b ++ (rs.map (fun r => (processEnvelope procDoc r).2)).flatten) := by
    intro rs
    induction rs with
    | nil => intro a b; simp
    | cons r rest ih =>
      intro a b
      simp only [List.foldl_cons, List.map_cons, List.flatten_cons, ih]
      simp [List.append_assoc]
  unfold lambda_handler
  dsimp only
  rw [aux]
  simp

lemma processS3Records_ok_append (procDoc : Json → String → Json → Except String Dict) :
    ∀ (good tail : List Json),
      (∀ r ∈ good, ∃ f, extractDocFields r = .ok f) →
      processS3Records procDoc (good ++ tail) =
        ((processS3Records procDoc good).1 ++ (processS3Records procDoc tail).1,
         (processS3Records procDoc good).2.1 ++ (processS3Records procDoc tail).2.1,
         (processS3Records procDoc tail).2.2) := by
  intro good
  induction good with
  | nil => intro tail _; simp [processS3Records]
  | cons r rest ih =>
    intro tail hgood
    obtain ⟨f, hf⟩ := hgood r (List.mem_cons_self r rest)
    obtain ⟨bucket, key, time⟩ := f
    have hrest : ∀ x ∈ rest, ∃ g, extractDocFields x = .ok g := by
      intro x hx
      exact hgood x (List.mem_cons_of_mem r hx)
    simp only [List.cons_append, processS3Records, hf]
    cases docEntry procDoc bucket key time with
    | inl s => simp [ih tail hrest]
    | inr f2 => simp [ih tail hrest]

/-- A Python slice `s[a:-1]` with a non-negative start drops the final
character before taking the suffix. -/
lemma pySlice_neg_one (s : String) (a : Nat) :
    pySlice s (a : Int) (-1) = String.mk (s.data.dropLast.drop a) := by
  unfold pySlice pyIdx
  rw [if_neg (by omega : ¬ ((a : Int) < 0)), if_pos (by omega : ((-1 : Int) < 0))]
  congr 1
  rw [List.dropLast_eq_take]
  have hmax : (max 0 ((s.data.length : Int) + -1)).toNat = s.data.length - 1 := by omega
  rw [hmax]
  by_cases hle : a ≤ s.data.length
  · have hmin : (min (a : Int) ((s.data.length : Nat) : Int)).toNat = a := by omega
    rw [hmin]
  · have hmin : (min (a : Int) ((s.data.length : Nat) : Int)).toNat = s.data.length := by omega
    rw [hmin]
    rw [List.drop_eq_nil_of_le, List.drop_eq_nil_of_le]
    · rw [List.length_take]
      omega
    · rw [List.length_take]
      omega

/- ---------------------------------------------------------------
   Claims
   --------------------------------------------------------------- -/

/-- Claim C1: for every batch, the handler returns status code 200 when the
failure list is empty and 207 when it is non-empty, `processed` equal to the
number of success entries, `errors` equal to the number of failure entries,
and `results` and `errors_detail` are exactly the concatenation, over the
input envelopes in order, of each envelope's success and failure entries —
so every input item's fate is reported and successes survive failures
elsewhere in the batch. -/
theorem lambda_handler_batch_report
    (procDoc : Json → String → Json → Except String Dict) (records : List Json) :
    lambda_handler procDoc records =
      { statusCode :=
          if ((records.map (fun r => (processEnvelope procDoc r).2)).flatten).isEmpty
          then 200 else 207,
        processed := ((records.map (fun r => (processEnvelope procDoc r).1)).flatten).length,
        errors := ((records.map (fun r => (processEnvelope procDoc r).2)).flatten).length,
        results := (records.map (fun r => (processEnvelope procDoc r).1)).flatten,
        errors_detail := (records.map (fun r => (processEnvelope procDoc r).2)).flatten } :=
  handler_decomp procDoc records

/-- Claim C2: a document whose processing fails contributes exactly one
failure entry carrying its key, and the remaining documents of the same
envelope are still processed (third conjunct); an envelope whose body is
invalid JSON contributes exactly one envelope-level failure entry and
nothing else (second conjunct); and every envelope's contribution to the
batch output is independent of the other envelopes (first conjunct), so
neither kind of failure stops iteration elsewhere. -/
theorem document_failure_isolation
    (procDoc : Json → String → Json → Except String Dict) :
    (∀ records : List Json,
        (lambda_handler procDoc records).results =
          (records.map (fun r => (processEnvelope procDoc r).1)).flatten ∧
        (lambda_handler procDoc records).errors_detail =
          (records.map (fun r => (processEnvelope procDoc r).2)).flatten) ∧
    (∀ sqs_record body e,
        getItem sqs_record "body" = .ok (Json.str body) →
        json_loads body = .error e →
        processEnvelope procDoc sqs_record = ([], [envFailEntry e])) ∧
    (∀ r bucket key time rest e,
        extractDocFields r = .ok (bucket, key, time) →
        procDoc bucket key time = .error e →
        processS3Records procDoc (r :: rest) =
          ((processS3Records procDoc rest).1,
           Json.obj [("status", Json.str "error"), ("document", Json.str key),
             ("error", Json.str e)] :: (processS3Records procDoc rest).2.1,
           (processS3Records procDoc rest).2.2)) := by
  refine ⟨fun records => ?_, fun sqs_record body e h1 h2 => ?_, fun r bucket key time rest e h1 h2 => ?_⟩
  · rw [handler_decomp]
    exact ⟨rfl, rfl⟩
  · unfold processEnvelope unwrapEnvelope
    rw [h1]
    dsimp only [asStr]
    rw [h2]
  · simp only [processS3Records, h1, docEntry, h2]

/-- Claim C9: when the document-change record at some position of an
envelope is malformed, the exception aborts the inner loop: the entries
already produced by the well-formed records before it are kept, the records
after it contribute nothing, and the envelope gains exactly one
envelope-level failure entry that carries no `document` field. -/
theorem malformed_record_aborts_envelope
    (procDoc : Json → String → Json → Except String Dict)
    (sqs_record : Json) (good : List Json) (bad : Json) (rest : List Json) (e : String)
    (hunwrap : unwrapEnvelope sqs_record = .ok (good ++ bad :: rest))
    (hgood : ∀ r ∈ good, ∃ f, extractDocFields r = .ok f)
    (hbad : extractDocFields bad = .error e) :
    processEnvelope procDoc sqs_record =
      ((processS3Records procDoc good).1,
       (processS3Records procDoc good).2.1 ++ [envFailEntry e]) ∧
    entryField (envFailEntry e) "document" = none ∧
    entryField (envFailEntry e) "error" = some (Json.str e) := by
  refine ⟨?_, by simp [entryField, envFailEntry, dictGet], by simp [entryField, envFailEntry, dictGet]⟩
  unfold processEnvelope
  rw [hunwrap]
  dsimp only
  rw [processS3Records_ok_append procDoc good (bad :: rest) hgood]
  simp [processS3Records, hbad]

/-- Claim C3 (code bug): the decode fallback of `parse_json_response` never
parses the original text.  Because `content` is reassigned to the fenced
candidate before the first parse, the `except` branch parses the very same
candidate again, so the whole function equals one parse of the candidate
(first conjunct); on the failing input — a valid JSON document whose string
value contains a fence marker — the function surfaces a decode error
(second conjunct) although the full original text parses (third conjunct),
contradicting the documented fallback to the entire response. -/
theorem parse_json_response_no_original_fallback :
    (∀ content : String,
        parse_json_response content = json_loads (extractCandidate content)) ∧
    (∃ e, parse_json_response "\x7b\"a\": \"``` x ```\"\x7d" = .error e) ∧
    json_loads "\x7b\"a\": \"``` x ```\"\x7d" =
      .ok (Json.obj [("a", Json.str "``` x ```")]) := by
  refine ⟨fun content => ?_, ⟨_, rfl⟩, rfl⟩
  unfold parse_json_response
  cases h : json_loads (extractCandidate content) with
  | ok v => simp [h]
  | error e => simp [h]

/-- Claim C6: the Response Parser slices between the first JSON-tagged
fence marker (after its 7-character tag) and the next closing marker
(first conjunct), else between the first generic fence marker (after its
3-character tag) and the next closing marker (second conjunct), else uses
the text unmodified (third conjunct); concretely it returns the object
with `a` mapped to 1 for the three example inputs and a decode error for
`not json at all`. -/
theorem response_parser_fence_extraction :
    (∀ (content : String) (i j : Nat),
        pyFind content "```json" 0 = (i : Int) →
        pyFind content "```" ((i : Int) + 7) = (j : Int) →
        extractCandidate content = pyStrip (pySlice content ((i : Int) + 7) (j : Int))) ∧
    (∀ (content : String) (i j : Nat),
        pyFind content "```json" 0 = -1 →
        pyFind content "```" 0 = (i : Int) →
        pyFind content "```" ((i : Int) + 3) = (j : Int) →
        extractCandidate content = pyStrip (pySlice content ((i : Int) + 3) (j : Int))) ∧
    (∀ content : String,
        pyFind content "```json" 0 = -1 →
        pyFind content "```" 0 = -1 →
        extractCandidate content = content) ∧
    parse_json_response "```json\n\x7b\"a\":1\x7d\n```" = .ok (Json.obj [("a", Json.num 1)]) ∧
    parse_json_response "here is the result: ```\n\x7b\"a\":1\x7d\n``` thanks" =
      .ok (Json.obj [("a", Json.num 1)]) ∧
    parse_json_response "\x7b\"a\":1\x7d" = .ok (Json.obj [("a", Json.num 1)]) ∧
    (∃ e, parse_json_response "not json at all" = .error e) := by
  refine ⟨fun content i j h1 h2 => ?_, fun content i j h0 h1 h2 => ?_,
    fun content h0 h1 => ?_, rfl, rfl, rfl, ⟨_, rfl⟩⟩
  · unfold extractCandidate
    rw [h1, if_pos (show (0 : Int) ≤ (i : Int) by omega)]
    dsimp only
    rw [h2]
  · unfold extractCandidate
    rw [h0, if_neg (show ¬ ((0 : Int) ≤ (-1 : Int)) by omega), h1,
      if_pos (show (0 : Int) ≤ (i : Int) by omega)]
    dsimp only
    rw [h2]
  · unfold extractCandidate
    rw [h0, if_neg (show ¬ ((0 : Int) ≤ (-1 : Int)) by omega), h1,
      if_neg (show ¬ ((0 : Int) ≤ (-1 : Int)) by omega)]

/-- Claim C10: when the text has an opening fence marker but no closing
marker after it, `find` returns -1 and the Python slice `[start:-1]` cuts
off the final character of the text (first two conjuncts, for the
JSON-tagged and the generic branch); concretely, for a JSON-tagged fence
followed by a valid JSON object and no closing fence, parsing surfaces a
decode error (third conjunct) although the text after the marker is valid
JSON (fourth conjunct). -/
theorem unterminated_fence_drops_last_char :
    (∀ (content : String) (i : Nat),
        pyFind content "```json" 0 = (i : Int) →
        pyFind content "```" ((i : Int) + 7) = -1 →
        extractCandidate content =
          pyStrip (String.mk (content.data.dropLast.drop (i + 7)))) ∧
    (∀ (content : String) (i : Nat),
        pyFind content "```json" 0 = -1 →
        pyFind content "```" 0 = (i : Int) →
        pyFind content "```" ((i : Int) + 3) = -1 →
        extractCandidate content =
          pyStrip (String.mk (content.data.dropLast.drop (i + 3)))) ∧
    (∃ e, parse_json_response "```json\n\x7b\"a\":1\x7d" = .error e) ∧
    json_loads (pyStrip (String.mk ("```json\n\x7b\"a\":1\x7d".data.drop 7))) =
      .ok (Json.obj [("a", Json.num 1)]) := by
  refine ⟨fun content i h1 h2 => ?_, fun content i h0 h1 h2 => ?_, ⟨_, rfl⟩, rfl⟩
  · unfold extractCandidate
    rw [h1, if_pos (show (0 : Int) ≤ (i : Int) by omega)]
    dsimp only
    rw [h2, show ((i : Int) + 7) = ((i + 7 : Nat) : Int) by push_cast; ring,
      pySlice_neg_one]
  · unfold extractCandidate
    rw [h0, if_neg (show ¬ ((0 : Int) ≤ (-1 : Int)) by omega), h1,
      if_pos (show (0 : Int) ≤ (i : Int) by omega)]
    dsimp only
    rw [h2, show ((i : Int) + 3) = ((i + 3 : Nat) : Int) by push_cast; ring,
      pySlice_neg_one]

/-- Claim C5: one `process_document` run attempts at most one record-store
write (third conjunct); on success it performed exactly one write, of the
fully assembled in-memory record it returns (first conjunct); and on
failure either no write was attempted at all, or the failure is the
persistence failure itself, wrapped as a store error after the single
attempt (second conjunct) — so a fetch, extraction or decode failure
leaves the store untouched. -/
theorem process_document_single_write (env : Env) (bucket key upload_time : String) :
    (∀ rec, (process_document env bucket key upload_time).1 = .ok rec →
        putTrace (process_document env bucket key upload_time).2 = [rec]) ∧
    (∀ e, (process_document env bucket key upload_time).1 = .error e →
        putTrace (process_document env bucket key upload_time).2 = [] ∨
        ∃ c rec, e = "Failed to store record in DynamoDB: " ++ c ∧
          putTrace (process_document env bucket key upload_time).2 = [rec]) ∧
    (putTrace (process_document env bucket key upload_time).2).length ≤ 1 := by
  unfold process_document
  split
  · simp [putTrace]
  · dsimp only
    split
    · simp [putTrace]
    · split
      · simp [putTrace]
      · split
        · simp [putTrace]
        · split
          · simp [putTrace]
          · split
            · split
              · simp [putTrace]
              · next c heq =>
                refine ⟨by simp, ?_, by simp [putTrace]⟩
                intro e he
                simp only [Except.error.injEq] at he
                right
                exact ⟨c, _, he.symm, rfl⟩
            · simp [putTrace]

/-- Claim C4: whenever `process_document` succeeds, the record it returns
is the fixed-field record with every extracted property assigned over it
in enumeration order, so an extracted field whose name collides with a
fixed field silently overwrites the fixed value (for any name occurring in
the extracted properties, the final record holds the extracted value);
concretely, fixed fields `bucket = b, document_name = k` merged with the
extracted property `bucket = override` yield `bucket = override`. -/
theorem record_assembly_extracted_wins :
    (∀ (env : Env) (bucket key upload_time : String) (r : Dict) (tr : List Ev),
        process_document env bucket key upload_time = (.ok r, tr) →
        ∃ resp props,
          env.s3_get_object bucket key = .ok resp ∧
          r = assembleRecord
                (recordBase env bucket key upload_time resp.body
                  (resp.contentType.getD "application/octet-stream")) props ∧
          (∀ n v, lookupLast props n = some v → dictGet r n = some v)) ∧
    dictGet (assembleRecord [("bucket", Json.str "b"), ("document_name", Json.str "k")]
        [("bucket", Json.str "override")]) "bucket" = some (Json.str "override") := by
  refine ⟨?_, rfl⟩
  intro env bucket key upload_time r tr h
  unfold process_document at h
  split at h
  · simp at h
  · next resp heqs3 =>
    dsimp only at h
    split at h
    · simp at h
    · split at h
      · simp at h
      · split at h
        · simp at h
        · split at h
          · simp at h
          · split at h
            · next props heqobj =>
              split at h
              · simp only [Prod.mk.injEq, Except.ok.injEq] at h
                obtain ⟨hr, htr⟩ := h
                subst hr
                refine ⟨resp, props, heqs3, rfl, ?_⟩
                intro n v hv
                rw [dictGet_assembleRecord, hv]
              · simp at h
            · simp at h

/-- Claim C7 (amended): the extraction schema and the prompt template are
re-read from their packaged files on every document invocation — a
successful `process_document` run performs exactly one schema-file read
and exactly one prompt-file read of its own; the loaders are pure
functions of the packaged file contents, so repeated loads return
identical results. -/
theorem template_files_read_once_per_invocation (env : Env)
    (bucket key upload_time : String) (r : Dict) (tr : List Ev)
    (h : process_document env bucket key upload_time = (.ok r, tr)) :
    fileReadCount tr SCHEMA_FILE = 1 ∧ fileReadCount tr PROMPT_FILE = 1 := by
  unfold process_document at h
  split at h
  · simp at h
  · dsimp only at h
    split at h
    · simp at h
    · split at h
      · simp at h
      · split at h
        · simp at h
        · split at h
          · simp at h
          · split at h
            · split at h
              · simp only [Prod.mk.injEq, Except.ok.injEq] at h
                obtain ⟨hr, htr⟩ := h
                subst htr
                exact ⟨rfl, rfl⟩
              · simp at h
            · simp at h

/-- Claim C8: structural inspection is total — it cannot raise by
construction — and it returns `none` both on every content type that does
not indicate a PDF and on every `PdfReader` parse failure. -/
theorem get_page_count_never_raises (env : Env) (content : List Nat)
    (content_type : String) :
    (strContains (pyLower content_type) "pdf" = false →
        get_page_count env content content_type = none) ∧
    (∀ e, env.pdf_pages content = .error e →
        get_page_count env content content_type = none) := by
  constructor
  · intro h
    simp [get_page_count, h]
  · intro e he
    by_cases hc : strContains (pyLower content_type) "pdf"
    · simp [get_page_count, hc, he]
    · simp [get_page_count, hc]

/-- Witness for C2 evaluated at concrete inputs: an invalid-JSON body
yields exactly one envelope-level failure entry, and a processing failure
on the first of two well-formed records leaves the second record
processed. -/
theorem document_failure_isolation_witness :
    processEnvelope cProcOk badSqs = ([], [envFailEntry "Expecting value"]) ∧
    processS3Records cProcFail (goodRec :: [goodRec]) =
      ((processS3Records cProcFail [goodRec]).1,
       Json.obj [("status", Json.str "error"), ("document", Json.str "k1"),
         ("error", Json.str "boom")] :: (processS3Records cProcFail [goodRec]).2.1,
       (processS3Records cProcFail [goodRec]).2.2) :=
  ⟨(document_failure_isolation cProcOk).2.1 badSqs "not json" "Expecting value" rfl rfl,
   (document_failure_isolation cProcFail).2.2 goodRec (Json.str "b") "k1" (Json.str "t0")
     [goodRec] "boom" rfl rfl⟩

/-- Witness for C4 evaluated at a concrete environment: the successful run
returns the record assembled from the fixed fields and the extracted
properties, and its `bucket` field holds the extracted value. -/
theorem record_assembly_extracted_wins_witness :
    ∃ r tr, process_document cEnv "b" "k" "t" = (.ok r, tr) ∧
      (∃ resp props,
        cEnv.s3_get_object "b" "k" = .ok resp ∧
        r = assembleRecord
              (recordBase cEnv "b" "k" "t" resp.body
                (resp.contentType.getD "application/octet-stream")) props ∧
        (∀ n v, lookupLast props n = some v → dictGet r n = some v)) ∧
      dictGet r "bucket" = some (Json.str "override") :=
  ⟨_, _, rfl, record_assembly_extracted_wins.1 cEnv "b" "k" "t" _ _ rfl, rfl⟩

/-- Witness for C5 evaluated at a concrete environment: the successful run
performed exactly one put attempt, of the returned record. -/
theorem process_document_single_write_witness :
    ∃ r tr, process_document cEnv "b" "k" "t" = (.ok r, tr) ∧ putTrace tr = [r] :=
  ⟨_, _, rfl, (process_document_single_write cEnv "b" "k" "t").1 _ rfl⟩

/-- Witness for C6 evaluated at the JSON-tagged example: the fence sits at
index 0 and the closing marker at index 16, and the candidate is the
stripped slice between them. -/
theorem response_parser_fence_extraction_witness :
    extractCandidate "```json\n\x7b\"a\":1\x7d\n```" =
      pyStrip (pySlice "```json\n\x7b\"a\":1\x7d\n```" ((0 : Int) + 7) (16 : Int)) :=
  response_parser_fence_extraction.1 "```json\n\x7b\"a\":1\x7d\n```" 0 16 (by decide) (by decide)

/-- Witness for the amended C7 evaluated at a concrete environment: one
schema read and one prompt read in a successful run. -/
theorem template_files_read_once_witness :
    fileReadCount (process_document cEnv "b" "k" "t").2 SCHEMA_FILE = 1 ∧
    fileReadCount (process_document cEnv "b" "k" "t").2 PROMPT_FILE = 1 :=
  template_files_read_once_per_invocation cEnv "b" "k" "t" _ _ rfl

/-- Witness for C8 evaluated at concrete inputs: `none` on a corrupt PDF
and `none` on a non-PDF content type. -/
theorem get_page_count_witness :
    get_page_count cEnv [0] "application/pdf" = none ∧
    get_page_count cEnv [0] "text/plain" = none :=
  ⟨(get_page_count_never_raises cEnv [0] "application/pdf").2 "not a pdf" rfl,
   (get_page_count_never_raises cEnv [0] "text/plain").1 rfl⟩

/-- Witness for C9 evaluated at a concrete three-record envelope whose
middle record is malformed: the first record's entry is kept, the third is
skipped, and one envelope-level failure entry without a `document` field is
appended. -/
theorem malformed_record_aborts_envelope_witness :
    processEnvelope cProcOk sqsC9 =
      ((processS3Records cProcOk [goodRec]).1,
       (processS3Records cProcOk [goodRec]).2.1 ++ [envFailEntry "KeyError: s3"]) ∧
    entryField (envFailEntry "KeyError: s3") "document" = none ∧
    entryField (envFailEntry "KeyError: s3") "error" = some (Json.str "KeyError: s3") :=
  malformed_record_aborts_envelope cProcOk sqsC9 [goodRec] (Json.obj []) [goodRec]
    "KeyError: s3" rfl
    (by
      intro r hr
      rw [List.mem_singleton] at hr
      subst hr
      exact ⟨_, rfl⟩)
    rfl

/-- Witness for C10 evaluated at a JSON-tagged fence with no closing
marker: the candidate is the stripped slice that lost the final
character. -/
theorem unterminated_fence_witness :
    extractCandidate "```json\n\x7b\"a\":1\x7d" =
      pyStrip (String.mk (("```json\n\x7b\"a\":1\x7d".data.dropLast).drop (0 + 7))) :=
  unterminated_fence_drops_last_char.1 "```json\n\x7b\"a\":1\x7d" 0 (by decide) (by decide)

/-- Counterexample to C7 as stated: `process_document` re-reads the schema
file and the prompt file on every invocation — two successful document runs
in the same process perform two schema-file reads and two prompt-file reads
in total, so the templates are not loaded once per process lifetime. -/
theorem template_reload_counterexample :
    (∃ r, (process_document cEnv "b1" "k1" "t1").1 = .ok r) ∧
    fileReadCount ((process_document cEnv "b1" "k1" "t1").2 ++
      (process_document cEnv "b2" "k2" "t2").2) SCHEMA_FILE = 2 ∧
    fileReadCount ((process_document cEnv "b1" "k1" "t1").2 ++
      (process_document cEnv "b2" "k2" "t2").2) PROMPT_FILE = 2 :=
  ⟨⟨_, rfl⟩, rfl, rfl⟩
